import Mathlib

/-!
# Verification of the contest-ranking engine (`judge/views/contests.py`)

Shallow embedding of the ranking and participation logic of
`src/judge/views/contests.py`, and proofs checking the natural-language
specification (`spec.md`) against it.

Conventions of the embedding:
* Database tables (`judge_contestparticipation`, `judge_contestsubmission` joined
  with `judge_submission`, `judge_contestproblem`) are passed around as explicit
  Lean lists of records, in storage order.
* Timestamps are integers (an abstract linear time); machine integers do not
  occur in the modelled code.
* Attributes of Django model classes that live outside this file's source
  (`Contest.can_join`, `Contest.ended`, `Participation.ended`, profile display
  fields) are carried as plain record fields: the ranking/join code only reads
  them.
-/

namespace OnlineJudge

/-- Display-related data of a user profile (`judge.models.Profile`), read by
`make_contest_ranking_profile` (contests.py lines 323–335). -/
structure UserInfo where
  id : Nat
  user : String
  display_rank : String
  long_display_name : String
  organization : Option Nat
deriving DecidableEq, Repr

/-- A row of `judge_contestparticipation`.  `virtual = 0` is the single live
attempt, `virtual = 1, 2, …` are virtual replays; `spectate` marks organizers.
`score`/`cumtime` are the stored aggregates read by the ranking code;
`ended` embeds the `Participation.ended` property (contests.py line 208 reads
it; its derivation from the contest time limit lives in `judge.models`,
outside this file). -/
structure Participation where
  id : Nat
  contestId : Nat
  user : UserInfo
  virtual : Nat
  spectate : Bool
  start : Int
  score : Nat
  cumtime : Nat
  rating : Option Nat
  ended : Bool
deriving DecidableEq, Repr

/-- A row of `judge_contestproblem` (problem id, its code via the join with
`judge_problem`, point value, ordering key). -/
structure ContestProblem where
  id : Nat
  code : String
  points : Nat
  order : Nat
deriving DecidableEq, Repr

/-- A contest submission: a row of `judge_contestsubmission` joined with its
`judge_submission` row (which carries the date), as read by the ranking SQL
(contests.py lines 348–356). -/
structure Submission where
  participationId : Nat
  problemId : Nat
  points : Nat
  date : Int
deriving DecidableEq, Repr

/-- The contest fields read by the join and ranking views.  `can_join` and
`ended` embed the corresponding `judge.models.Contest` properties (read at
contests.py lines 175 and 184); `organizers` is the set of organizer profile
ids (read at line 205). -/
structure Contest where
  id : Nat
  name : String
  can_join : Bool
  ended : Bool
  organizers : List Nat
  contest_problems : List ContestProblem
deriving DecidableEq, Repr

/-- `BestSolutionData` namedtuple (contests.py line 320). -/
structure BestSolutionData where
  code : String
  points : Nat
  time : Int
  state : String
deriving DecidableEq, Repr

/-- `ContestRankingProfile` namedtuple (contests.py lines 318–319); `problems`
holds one optional cell per contest problem, `none` meaning unattempted. -/
structure ContestRankingProfile where
  id : Nat
  user : String
  display_rank : String
  long_display_name : String
  points : Nat
  cumtime : Nat
  problems : List (Option BestSolutionData)
  rating : Option Nat
  organization : Option Nat
deriving DecidableEq, Repr

/-- `make_contest_ranking_profile(participation, problems)`
(contests.py lines 323–335): display metadata from the user profile, `points`
and `cumtime` from the stored participation aggregates. -/
def make_contest_ranking_profile (participation : Participation)
    (problems : List (Option BestSolutionData)) : ContestRankingProfile :=
  { id := participation.user.id
    user := participation.user.user
    display_rank := participation.user.display_rank
    long_display_name := participation.user.long_display_name
    points := participation.score
    cumtime := participation.cumtime
    organization := participation.user.organization
    rating := participation.rating
    problems := problems }

/-- `best_solution_state(points, total)` (contests.py lines 338–343).
Note the source's literal string `'patial-score'` on line 343. -/
def best_solution_state (points total : Nat) : String :=
  if points = 0 then "failed-score"
  else if points = total then "full-score"
  else "patial-score"

/-- The submissions of one `(participation, contest-problem)` pair: the rows
the ranking SQL's `GROUP BY cp.id, part.id` groups together
(contests.py line 355), equally the rows matched by
`filter(submission__participation=participation)` for one problem
(line 379). -/
def submissions_for (subs : List Submission) (partId probId : Nat) :
    List Submission :=
  subs.filter (fun s => s.participationId = partId && s.problemId = probId)

/-- `MAX(cs.points)` over a submission group. -/
def max_points_of (l : List Submission) : Nat :=
  l.foldr (fun s m => max s.points m) 0

/-- `MAX(sub.date)` over a nonempty submission group. -/
def max_date_of (s : Submission) (rest : List Submission) : Int :=
  rest.foldr (fun t m => max t.date m) s.date

/-- The `data` dict entry of the main ranking SQL for one
`(participation, contest-problem)` pair (contests.py lines 348–358):
`MAX(cs.points) AS best, MAX(sub.date) AS last` computed independently over
the `GROUP BY cp.id, part.id` group, `none` when the pair has no submission
(the `LEFT OUTER JOIN` leaves `best` NULL there, and line 368 checks
`data[part, prob][1] is not None`). -/
def sql_best (subs : List Submission) (partId probId : Nat) :
    Option (Nat × Int) :=
  match submissions_for subs partId probId with
  | [] => none
  | s :: rest => some (max_points_of (s :: rest), max_date_of s rest)

/-- The `scoring` dict entry of the single-participation aggregation
(contests.py lines 378–381): `annotate(score=Max('submission__points'),
time=Max('submission__submission__date'))` over the participation's
submissions to one contest problem; the dict has no key for a problem the
participation never submitted to (line 387's `if problem.id in scoring`). -/
def participation_best (subs : List Submission) (partId probId : Nat) :
    Option (Nat × Int) :=
  match submissions_for subs partId probId with
  | [] => none
  | s :: rest => some (max_points_of (s :: rest), max_date_of s rest)

/-- One ranking cell of the main path: the conditional expression inside
`make_ranking_profile` (contests.py lines 365–368): when the pair has a best,
a `BestSolutionData` with elapsed time `best timestamp - participation.start`,
else `None`. -/
def best_solution_cell (subs : List Submission) (participation : Participation)
    (problem : ContestProblem) : Option BestSolutionData :=
  match sql_best subs participation.id problem.id with
  | some (pts, last) =>
      some { code := problem.code
             points := pts
             time := last - participation.start
             state := best_solution_state pts problem.points }
  | none => none

/-- One ranking cell of the single-participation path: the conditional
expression inside `get_participation_ranking_profile` (contests.py
lines 384–387), with the same elapsed-time formula
`scoring[problem.id][1] - participation.start`. -/
def participation_cell (subs : List Submission) (participation : Participation)
    (problem : ContestProblem) : Option BestSolutionData :=
  match participation_best subs participation.id problem.id with
  | some (pts, last) =>
      some { code := problem.code
             points := pts
             time := last - participation.start
             state := best_solution_state pts problem.points }
  | none => none

/-- `make_ranking_profile(participation)`, the closure inside
`contest_ranking_list` (contests.py lines 362–368): zip the aggregated data
against the ordered problem list. -/
def make_ranking_profile (subs : List Submission) (problems : List ContestProblem)
    (participation : Participation) : ContestRankingProfile :=
  make_contest_ranking_profile participation
    (problems.map (fun problem => best_solution_cell subs participation problem))

/-- The `ORDER BY` comparator of `contest_ranking_list`'s queryset:
`.order_by('-score', 'cumtime')` (contests.py line 374) — descending stored
score, then ascending cumulative time.  The source names no further key, so
rows tied on both compare equal. -/
def ranking_le (a b : Participation) : Prop :=
  b.score < a.score ∨ (a.score = b.score ∧ a.cumtime ≤ b.cumtime)

instance : DecidableRel ranking_le := fun a b =>
  inferInstanceAs (Decidable (b.score < a.score ∨ (a.score = b.score ∧ a.cumtime ≤ b.cumtime)))

instance : IsTotal Participation ranking_le :=
  ⟨fun a b => by unfold ranking_le; omega⟩

instance : IsTrans Participation ranking_le :=
  ⟨fun a b c => by unfold ranking_le; omega⟩

/-- The participations scanned by the main leaderboard:
`contest.users.filter(spectate=False, virtual=0)` (contests.py line 371), the
same scope as the SQL `WHERE part.contest_id = %s AND part.virtual = 0 AND
part.spectate = 0` (line 354). -/
def ranked_participations (contest : Contest) (parts : List Participation) :
    List Participation :=
  parts.filter (fun p => p.contestId = contest.id && !p.spectate && p.virtual == 0)

/-- `contest_ranking_list(contest, problems)` (contests.py lines 346–374):
aggregate best scores per pair, then map `make_ranking_profile` over the
participations of the contest with `spectate=False, virtual=0`, ordered by
`(-score, cumtime)`.  The database's sort is modelled by a stable merge sort
of the storage-order list on exactly the two named keys. -/
def contest_ranking_list (contest : Contest) (parts : List Participation)
    (subs : List Submission) (problems : List ContestProblem) :
    List ContestRankingProfile :=
  (List.insertionSort ranking_le (ranked_participations contest parts)).map
    (make_ranking_profile subs problems)

/-- `get_participation_ranking_profile(contest, participation, problems)`
(contests.py lines 377–388): the single-participation aggregation zipped
against the ordered problem list the same way as the main path.  (The
`contest` argument scopes the `contest.contest_problems` query; here that
scope is already captured by the `problems` list handed in, as the caller on
line 399 passes the contest's own problem list.) -/
def get_participation_ranking_profile (contest : Contest) (subs : List Submission)
    (participation : Participation) (problems : List ContestProblem) :
    ContestRankingProfile :=
  make_contest_ranking_profile participation
    (problems.map (fun problem => participation_cell subs participation problem))

/-- Modelled from the spec: `judge.utils.ranker.ranker` (imported at
contests.py line 27) is not part of this source snapshot.  Spec §4.4: walk the
caller-sorted sequence once; the first item gets rank 1, items whose key equals
the previous item's key share its rank, and after a tie run of size k starting
at rank r the next distinct key gets rank r + k.  `rank` is the rank of the
previous tie group and `delta` the number of items seen since it started. -/
def rankerAux {α κ : Type} [DecidableEq κ] (key : α → κ) :
    Nat → Nat → Option κ → List α → List (Nat × α)
  | _, _, _, [] => []
  | rank, delta, last, x :: xs =>
      if last = some (key x) then
        (rank, x) :: rankerAux key rank (delta + 1) last xs
      else
        (rank + delta, x) :: rankerAux key (rank + delta) 1 (some (key x)) xs

/-- Modelled from the spec: entry point of the ranker, starting before any
tie group (`rank = 0`, one pending increment). -/
def ranker {α κ : Type} [DecidableEq κ] (key : α → κ) (l : List α) :
    List (Nat × α) :=
  rankerAux key 0 1 none l

/-- The comparator of `.order_by('order')` on the contest problems
(contests.py line 392). -/
def problem_order_le (a b : ContestProblem) : Prop :=
  a.order ≤ b.order

instance : DecidableRel problem_order_le := fun a b =>
  inferInstanceAs (Decidable (a.order ≤ b.order))

/-- `key=attrgetter('points', 'cumtime')` passed to `ranker`
(contests.py line 393). -/
def ranking_key (p : ContestRankingProfile) : Nat × Nat :=
  (p.points, p.cumtime)

/-- An element of the `users` value built by `get_contest_ranking_list`.  The
Python list is heterogeneous: `ranker` yields `(rank, profile)` pairs, while
`chain(('-', profile))` (contests.py line 399) iterates over the **tuple
itself**, yielding the bare string `'-'` and then the bare profile as two
separate elements. -/
inductive RankingEntry where
  | ranked (rank : Nat) (profile : ContestRankingProfile)
  | sentinelStr
  | bareProfile (profile : ContestRankingProfile)
deriving DecidableEq, Repr

/-- The request context read by `get_contest_ranking_list`:
`request.user.is_authenticated()` and `request.user.profile.current_contest`
(contests.py lines 394–395). -/
structure RequestContext where
  is_authenticated : Bool
  current_contest : Option Participation
deriving Repr

/-- `get_contest_ranking_list(request, contest, participation)`
(contests.py lines 391–400).  Note line 400 returns only `users` — a single
list, not a `(users, problems)` pair — and line 399 rebinds `users` to
`chain(('-', get_participation_ranking_profile(...)))`, whose iteration yields
exactly the two elements of the tuple. -/
def get_contest_ranking_list (request : RequestContext) (contest : Contest)
    (parts : List Participation) (subs : List Submission)
    (participation : Option Participation) : List RankingEntry :=
  let problems := List.insertionSort problem_order_le contest.contest_problems
  let users := (ranker ranking_key (contest_ranking_list contest parts subs problems)).map
    (fun rp => RankingEntry.ranked rp.1 rp.2)
  let participation :=
    if participation.isNone && request.is_authenticated then
      match request.current_contest with
      | some p => if p.contestId = contest.id then some p else none
      | none => none
    else participation
  match participation with
  | some p =>
      if p.virtual ≠ 0 then
        [RankingEntry.sentinelStr,
         RankingEntry.bareProfile (get_participation_ranking_profile contest subs p problems)]
      else users
  | none => users

/-! ## `ContestJoin.get` (contests.py lines 172–214) -/

/-- The request user's profile as seen by `ContestJoin.get`: identity/display
data plus the `current_contest` pointer. -/
structure UserProfile where
  info : UserInfo
  current_contest : Option Participation
deriving Repr

/-- The caller-visible outcomes of `ContestJoin.get`: the three
`generic_message` early returns and the final redirect (contests.py
lines 176, 181, 209, 214). -/
inductive JoinResult where
  | notOngoing
  | alreadyInContest
  | timeLimitExceeded
  | redirect
deriving DecidableEq, Repr

/-- `ContestParticipation.objects.filter(contest=contest, user=profile)
.aggregate(virtual_id=Max('virtual'))['virtual_id'] or 0`
(contests.py lines 186–187): the current maximum virtual id for
`(contest, user)`, 0 when none exists. -/
def max_virtual (parts : List Participation) (contestId userId : Nat) : Nat :=
  (parts.filter (fun p => p.contestId = contestId && p.user.id = userId)).foldr
    (fun p m => max p.virtual m) 0

/-- A fresh autoincrement row id for an insert into
`judge_contestparticipation`. -/
def fresh_part_id (parts : List Participation) : Nat :=
  parts.foldr (fun p m => max p.id m) 0 + 1

/-- `ContestParticipation.objects.create(contest=contest, user=profile,
virtual=virtual_id, real_start=timezone.now())` (contests.py lines 189–192). -/
def new_participation (contest : Contest) (profile : UserProfile)
    (parts : List Participation) (virtualId : Nat) (now : Int) : Participation :=
  { id := fresh_part_id parts
    contestId := contest.id
    user := profile.info
    virtual := virtualId
    spectate := false
    start := now
    score := 0
    cumtime := 0
    rating := none
    ended := false }

/-- The row a concurrent racer inserts when it wins a round of the virtual-id
race: same `(contest, user)` pair, holding exactly the candidate virtual id we
just computed — the only way our insert can violate the uniqueness constraint
on `(contest, user, virtual)` and raise `IntegrityError` (contests.py
line 194). -/
def racer_row (contest : Contest) (profile : UserProfile) (racer : UserInfo)
    (parts : List Participation) (now : Int) : Participation :=
  { new_participation contest profile parts
      (max_virtual parts contest.id profile.info.id + 1) now with
    user := { racer with id := profile.info.id } }

/-- The `while True` retry loop of the ended-contest branch (contests.py
lines 185–197).  One entry of `interference` per loop iteration: `true` means
a concurrent racer won this round (its row, carrying the candidate id, is in
the table when we retry); `false` or an exhausted schedule means our insert
commits.  Each iteration recomputes `virtual_id` from the current table,
exactly as the loop body does. -/
def virtual_join_loop (contest : Contest) (profile : UserProfile)
    (racer : UserInfo) (now : Int) :
    List Participation → List Bool → Participation × List Participation
  | parts, [] =>
      let virtual_id := max_virtual parts contest.id profile.info.id + 1
      let participation := new_participation contest profile parts virtual_id now
      (participation, participation :: parts)
  | parts, conflict :: rest =>
      if conflict then
        virtual_join_loop contest profile racer now
          (racer_row contest profile racer parts now :: parts) rest
      else
        let virtual_id := max_virtual parts contest.id profile.info.id + 1
        let participation := new_participation contest profile parts virtual_id now
        (participation, participation :: parts)

/-- The successive values the loop assigns to `virtual_id`
(contests.py lines 186–187), one per iteration until the insert commits. -/
def virtual_join_candidates (contest : Contest) (profile : UserProfile)
    (racer : UserInfo) (now : Int) :
    List Participation → List Bool → List Nat
  | parts, [] => [max_virtual parts contest.id profile.info.id + 1]
  | parts, conflict :: rest =>
      if conflict then
        (max_virtual parts contest.id profile.info.id + 1) ::
          virtual_join_candidates contest profile racer now
            (racer_row contest profile racer parts now :: parts) rest
      else [max_virtual parts contest.id profile.info.id + 1]

/-- `ContestParticipation.objects.get_or_create(contest=contest, user=profile,
virtual=0, defaults={'real_start': timezone.now()})` (contests.py
lines 199–204): look up the live row, create it when absent. -/
def get_or_create_live (contest : Contest) (profile : UserProfile)
    (parts : List Participation) (now : Int) :
    Participation × Bool :=
  match parts.find? (fun p =>
      p.contestId = contest.id && p.user.id = profile.info.id && p.virtual == 0) with
  | some p => (p, false)
  | none => (new_participation contest profile parts 0 now, true)

/-- `participation.save()`: write the (possibly new) row back to the table. -/
def save_participation (parts : List Participation) (participation : Participation)
    (created : Bool) : List Participation :=
  if created then participation :: parts
  else parts.map (fun q => if q.id = participation.id then participation else q)

/-- `ContestJoin.get` (contests.py lines 173–214), as a function of the
request and the participation table, returning the caller-visible outcome,
the updated table, and the updated profile.  `interference` drives the
virtual-id retry loop as in `virtual_join_loop`. -/
def contest_join_get (contest : Contest) (profile : UserProfile)
    (parts : List Participation) (now : Int) (racer : UserInfo)
    (interference : List Bool) :
    JoinResult × List Participation × UserProfile :=
  if !contest.can_join then
    (JoinResult.notOngoing, parts, profile)
  else if profile.current_contest.isSome then
    (JoinResult.alreadyInContest, parts, profile)
  else if contest.ended then
    let (participation, parts) := virtual_join_loop contest profile racer now parts interference
    (JoinResult.redirect, parts, { profile with current_contest := some participation })
  else
    let (participation, created) := get_or_create_live contest profile parts now
    let participation := { participation with
                           spectate := contest.organizers.contains profile.info.id }
    let parts := save_participation parts participation created
    if !created && participation.ended then
      (JoinResult.timeLimitExceeded, parts, profile)
    else
      (JoinResult.redirect, parts, { profile with current_contest := some participation })

/-! ## Concrete fixtures (used by counterexamples and witnesses) -/

/-- A live contestant's profile data. -/
def userA : UserInfo :=
  { id := 1, user := "alice", display_rank := "user",
    long_display_name := "Alice", organization := none }

/-- A second contestant's profile data. -/
def userB : UserInfo :=
  { id := 2, user := "bob", display_rank := "user",
    long_display_name := "Bob", organization := none }

/-- A virtual participant's (the viewer's) profile data. -/
def userV : UserInfo :=
  { id := 3, user := "vera", display_rank := "user",
    long_display_name := "Vera", organization := none }

/-- A single 100-point contest problem. -/
def probOne : ContestProblem :=
  { id := 10, code := "aplusb", points := 100, order := 1 }

/-- A running public contest with one problem and no organizers. -/
def contestOne : Contest :=
  { id := 1, name := "Contest One", can_join := true, ended := false,
    organizers := [], contest_problems := [probOne] }

/-- The same contest after it ended (virtual-join territory). -/
def contestOneEnded : Contest :=
  { contestOne with ended := true }

/-- Alice's live participation (virtual 0, not spectating). -/
def partA : Participation :=
  { id := 1, contestId := 1, user := userA, virtual := 0, spectate := false,
    start := 0, score := 100, cumtime := 5, rating := none, ended := false }

/-- Bob's live participation, tied with Alice's on `(score, cumtime)` for the
tie-order counterexample. -/
def partB : Participation :=
  { id := 2, contestId := 1, user := userB, virtual := 0, spectate := false,
    start := 0, score := 100, cumtime := 5, rating := none, ended := false }

/-- Vera's virtual participation (virtual 1), starting 300 after contest
start. -/
def partV : Participation :=
  { id := 3, contestId := 1, user := userV, virtual := 1, spectate := false,
    start := 300, score := 0, cumtime := 0, rating := none, ended := false }

/-- Alice's single 100-point submission to `probOne` at time 40. -/
def subA : Submission :=
  { participationId := 1, problemId := 10, points := 100, date := 40 }

/-- Two submissions of one pair whose maximum points (100, at date 10) and
maximum date (20, scoring 50) come from different submissions. -/
def subEarlyHigh : Submission :=
  { participationId := 1, problemId := 10, points := 100, date := 10 }

/-- See `subEarlyHigh`. -/
def subLateLow : Submission :=
  { participationId := 1, problemId := 10, points := 50, date := 20 }

/-- An unauthenticated request context. -/
def reqAnon : RequestContext :=
  { is_authenticated := false, current_contest := none }

/-- Vera's request context: authenticated, current participation `partV`. -/
def reqVera : RequestContext :=
  { is_authenticated := true, current_contest := some partV }

/-- Vera's user profile with no current contest. -/
def profVera : UserProfile :=
  { info := userV, current_contest := none }

/-- Vera's user profile while her current participation is in `contestOne`
itself. -/
def profVeraInOne : UserProfile :=
  { info := userV, current_contest := some partV }

/-- An anonymous racer identity for the virtual-join interference model. -/
def racerU : UserInfo :=
  { id := 99, user := "racer", display_rank := "user",
    long_display_name := "Racer", organization := none }

/-- A pre-existing virtual participation of Vera's (virtual 1) in the ended
contest. -/
def partVPrev : Participation :=
  { id := 7, contestId := 1, user := userV, virtual := 1, spectate := false,
    start := 2, score := 0, cumtime := 0, rating := none, ended := true }

/-- Alice's expired live participation, for the time-limit-exceeded rejoin. -/
def partAEnded : Participation :=
  { partA with ended := true }

/-- A contest like `contestOne` but with Alice among the organizers. -/
def contestOrg : Contest :=
  { contestOne with organizers := [1] }

/-- Vera's 80-point submission at time 350, 350 after the contest start but
only 50 after her own virtual start. -/
def subV : Submission :=
  { participationId := 3, problemId := 10, points := 80, date := 350 }

/-- Alice's user profile with no current contest. -/
def profAlice : UserProfile :=
  { info := userA, current_contest := none }

/-! ## Helper lemmas about the group maxima -/

theorem mem_le_max_points {l : List Submission} : ∀ s ∈ l, s.points ≤ max_points_of l := by
  induction l with
  | nil => simp
  | cons a l ih =>
    intro s hs
    rcases List.mem_cons.mp hs with rfl | hs'
    · exact Nat.le_max_left _ _
    · exact (ih s hs').trans (Nat.le_max_right _ _)

theorem exists_max_points : ∀ (l : List Submission), l ≠ [] → ∃ s ∈ l, s.points = max_points_of l
  | [a], _ => ⟨a, by simp, by show a.points = max a.points (max_points_of []); simp [max_points_of]⟩
  | a :: b :: t, _ => by
    obtain ⟨s, hs, hmax⟩ := exists_max_points (b :: t) (by simp)
    by_cases hle : a.points ≤ max_points_of (b :: t)
    · refine ⟨s, List.mem_cons_of_mem a hs, ?_⟩
      show s.points = max a.points (max_points_of (b :: t))
      omega
    · refine ⟨a, by simp, ?_⟩
      show a.points = max a.points (max_points_of (b :: t))
      omega

theorem mem_le_max_date (s : Submission) :
    ∀ (rest : List Submission), ∀ u ∈ s :: rest, u.date ≤ max_date_of s rest
  | [], u, hu => by
    rcases List.mem_cons.mp hu with rfl | hu'
    · exact le_refl _
    · cases hu'
  | r :: t, u, hu => by
    have ih := mem_le_max_date s t
    show u.date ≤ max r.date (max_date_of s t)
    rcases List.mem_cons.mp hu with rfl | hu'
    · have := ih u (List.mem_cons_self u t)
      omega
    · rcases List.mem_cons.mp hu' with rfl | hu''
      · omega
      · have := ih u (List.mem_cons_of_mem s hu'')
        omega

theorem exists_max_date (s : Submission) :
    ∀ (rest : List Submission), ∃ u ∈ s :: rest, u.date = max_date_of s rest
  | [] => ⟨s, List.mem_cons_self s [], rfl⟩
  | r :: t => by
    obtain ⟨u, hu, hmax⟩ := exists_max_date s t
    show ∃ u ∈ s :: r :: t, u.date = max r.date (max_date_of s t)
    by_cases hle : r.date ≤ max_date_of s t
    · refine ⟨u, ?_, by omega⟩
      rcases List.mem_cons.mp hu with rfl | hu'
      · exact List.mem_cons_self u _
      · exact List.mem_cons_of_mem _ (List.mem_cons_of_mem _ hu')
    · exact ⟨r, List.mem_cons_of_mem _ (List.mem_cons_self r t), by omega⟩

/-! ## The claims -/

/-- C1: the claim says `get_contest_ranking_list` returns a
`(rankedSequence, orderedProblemList)` pair so that the two-value unpacking at
its call sites (contests.py lines 408 and 425) always succeeds.  The code at
line 400 returns only the `users` sequence; on a contest with a single ranked
participant that sequence has length 1, so `users, problems = ...` raises
`ValueError`.  This theorem evaluates the embedding at that failing input: the
result is the one-element ranked sequence itself, not a pair. -/
theorem ranking_list_returns_single_sequence :
    get_contest_ranking_list reqAnon contestOne [partA] [subA] none =
      [RankingEntry.ranked 1 (make_ranking_profile [subA] [probOne] partA)] ∧
    (get_contest_ranking_list reqAnon contestOne [partA] [subA] none).length ≠ 2 := by
  exact ⟨by decide, by decide⟩

/-- C2: the claim says a viewer with a virtual current participation gets
their own sentinel-ranked row attached alongside the full ranked sequence,
leaving every other row intact.  Line 399's `chain(('-', profile))` instead
iterates over the tuple itself, so the output is exactly the bare string `'-'`
followed by the bare profile — Alice's rank-1 row, present in the main ranked
list (second conjunct), is dropped entirely. -/
theorem virtual_viewer_row_replaces_ranking :
    get_contest_ranking_list reqVera contestOne [partA, partV] [subA] none =
      [RankingEntry.sentinelStr,
       RankingEntry.bareProfile
         (get_participation_ranking_profile contestOne [subA] partV [probOne])] ∧
    (contest_ranking_list contestOne [partA, partV] [subA] [probOne]).map
        (fun p => p.id) = [1] := by
  exact ⟨by decide, by decide⟩

/-- C3: state tags of a ranked cell for a 100-point problem.  A best score of
0 gives `failed-score`, 100 gives `full-score`, and a pair with no submission
gives a null cell; but the remaining case returns the literal `'patial-score'`
(contests.py line 343), not the `partial-score` the claim states. -/
theorem best_solution_state_tags :
    best_solution_state 0 100 = "failed-score" ∧
    best_solution_state 100 100 = "full-score" ∧
    best_solution_state 37 100 = "patial-score" ∧
    best_solution_state 37 100 ≠ "partial-score" ∧
    best_solution_cell [] partA probOne = none := by
  exact ⟨rfl, rfl, rfl, by decide, rfl⟩

/-- C4: for a `(contestProblem, participation)` pair with at least one
submission, both the main SQL aggregation and the single-participation
aggregation report the maximum points over the pair's submissions together
with the maximum timestamp over all of the pair's submissions, the two maxima
computed independently: the reported timestamp is the latest overall, attained
by some submission that need not be one achieving the maximum points. -/
theorem best_aggregates_are_independent_maxima (subs : List Submission)
    (partId probId : Nat) (h : submissions_for subs partId probId ≠ []) :
    ∃ p t, sql_best subs partId probId = some (p, t) ∧
      participation_best subs partId probId = some (p, t) ∧
      (∀ s ∈ submissions_for subs partId probId, s.points ≤ p) ∧
      (∃ s ∈ submissions_for subs partId probId, s.points = p) ∧
      (∀ s ∈ submissions_for subs partId probId, s.date ≤ t) ∧
      (∃ s ∈ submissions_for subs partId probId, s.date = t) := by
  rcases hg : submissions_for subs partId probId with _ | ⟨s, rest⟩
  · exact absurd hg h
  refine ⟨max_points_of (s :: rest), max_date_of s rest, ?_, ?_, ?_, ?_, ?_, ?_⟩
  · simp [sql_best, hg]
  · simp [participation_best, hg]
  · exact mem_le_max_points
  · exact exists_max_points _ (by simp)
  · exact mem_le_max_date s rest
  · exact exists_max_date s rest

/-- Witness for C4, at a pair whose maximum points (100, submitted at time 10)
and maximum timestamp (20, scoring only 50) come from different
submissions. -/
theorem best_aggregates_witness :
    ∃ p t, sql_best [subEarlyHigh, subLateLow] 1 10 = some (p, t) ∧
      participation_best [subEarlyHigh, subLateLow] 1 10 = some (p, t) ∧
      (∀ s ∈ submissions_for [subEarlyHigh, subLateLow] 1 10, s.points ≤ p) ∧
      (∃ s ∈ submissions_for [subEarlyHigh, subLateLow] 1 10, s.points = p) ∧
      (∀ s ∈ submissions_for [subEarlyHigh, subLateLow] 1 10, s.date ≤ t) ∧
      (∃ s ∈ submissions_for [subEarlyHigh, subLateLow] 1 10, s.date = t) :=
  best_aggregates_are_independent_maxima [subEarlyHigh, subLateLow] 1 10 (by decide)

/-- C5: in both the main path and the single-participation path, a non-null
ranked cell reports elapsed time `best timestamp - participation.start` — the
participation's own start, never the contest's — so a start offset from the
contest start by `offset` shifts the reported elapsed time by exactly
`offset`. -/
theorem elapsed_time_uses_participation_start
    (subs : List Submission) (participation : Participation)
    (problem : ContestProblem) (pts : Nat) (last : Int)
    (h : sql_best subs participation.id problem.id = some (pts, last)) :
    best_solution_cell subs participation problem =
      some { code := problem.code, points := pts,
             time := last - participation.start,
             state := best_solution_state pts problem.points } ∧
    participation_cell subs participation problem =
      some { code := problem.code, points := pts,
             time := last - participation.start,
             state := best_solution_state pts problem.points } ∧
    ∀ contestStart offset : Int, participation.start = contestStart + offset →
      last - participation.start = (last - contestStart) - offset := by
  have hp : participation_best subs participation.id problem.id = some (pts, last) := h
  refine ⟨?_, ?_, ?_⟩
  · simp [best_solution_cell, h]
  · simp [participation_cell, hp]
  · intro contestStart offset hoff
    omega

/-- Witness for C5: Vera's virtual participation starts at 300 = contest
start 0 + offset 300; her cell's elapsed time is 350 - 300 = 50, the
contest-relative 350 shifted by the offset. -/
theorem elapsed_time_witness :
    best_solution_cell [subV] partV probOne =
      some { code := probOne.code, points := 80,
             time := (350 : Int) - partV.start,
             state := best_solution_state 80 probOne.points } ∧
    participation_cell [subV] partV probOne =
      some { code := probOne.code, points := 80,
             time := (350 : Int) - partV.start,
             state := best_solution_state 80 probOne.points } ∧
    ∀ contestStart offset : Int, partV.start = contestStart + offset →
      (350 : Int) - partV.start = (350 - contestStart) - offset :=
  elapsed_time_uses_participation_start [subV] partV probOne 80 350 (by decide)

/-- C6: every row of the main leaderboard comes from a participation of this
contest with `spectate = false` and `virtual = 0`, and adding a virtual or
spectating participation to the store leaves the main ranking untouched (such
participations are reachable only through the separate single-participation
path). -/
theorem main_ranking_scope (contest : Contest) (parts : List Participation)
    (subs : List Submission) (problems : List ContestProblem) :
    (∀ prof ∈ contest_ranking_list contest parts subs problems,
      ∃ part ∈ parts, part.contestId = contest.id ∧ part.spectate = false ∧
        part.virtual = 0 ∧ prof = make_ranking_profile subs problems part) ∧
    (∀ vpart : Participation, vpart.virtual ≠ 0 ∨ vpart.spectate = true →
      contest_ranking_list contest (vpart :: parts) subs problems =
        contest_ranking_list contest parts subs problems) := by
  constructor
  · intro prof hprof
    unfold contest_ranking_list at hprof
    obtain ⟨part, hmem, rfl⟩ := List.mem_map.mp hprof
    have hf := List.mem_filter.mp ((List.mem_insertionSort ranking_le).mp hmem)
    obtain ⟨hp, hq⟩ := hf
    simp only [Bool.and_eq_true, decide_eq_true_eq, Bool.not_eq_true',
      beq_iff_eq] at hq
    exact ⟨part, hp, hq.1.1, hq.1.2, hq.2, rfl⟩
  · intro vpart hv
    have hfalse : (vpart.contestId = contest.id && !vpart.spectate &&
        vpart.virtual == 0) = false := by
      rcases hv with h | h
      · simp [h]
      · simp [h]
    unfold contest_ranking_list ranked_participations
    rw [List.filter_cons, hfalse]
    simp

/-- Witness for C6: adding Vera's virtual participation to the store does not
change the main ranking of `contestOne`. -/
theorem main_ranking_scope_witness :
    contest_ranking_list contestOne (partV :: [partA]) [subA] [probOne] =
      contest_ranking_list contestOne [partA] [subA] [probOne] :=
  (main_ranking_scope contestOne [partA] [subA] [probOne]).2 partV (Or.inl (by decide))

/-- C8 counterexample: Alice's and Bob's rows carry identical
`(score, cumtime)` pairs, yet two base-ranking computations over the same rows
in the two storage orders give the two different output orders — the code
orders by `(-score, cumtime)` only (contests.py line 374), with no stable
secondary ordering on an identity field, so the order of tied rows is not
determined by the score/cumtime data. -/
theorem tied_rows_follow_storage_order :
    partA.score = partB.score ∧ partA.cumtime = partB.cumtime ∧
    (contest_ranking_list contestOne [partA, partB] [] [probOne]).map
        (fun p => p.id) = [1, 2] ∧
    (contest_ranking_list contestOne [partB, partA] [] [probOne]).map
        (fun p => p.id) = [2, 1] := by
  exact ⟨rfl, rfl, by decide, by decide⟩

/-- C8 amended: the base ranking is ordered primarily by descending total
score and secondarily by ascending cumulative time, and is a permutation of
the profiles of the scoped participations; rows with identical
`(score, cumtime)` pairs keep their relative storage (queryset) order — no
identity-field tiebreaker is applied, so the order is deterministic only as a
function of the stored order. -/
theorem ranking_order_two_keys_stable (contest : Contest) (parts : List Participation)
    (subs : List Submission) (problems : List ContestProblem) :
    List.Pairwise (fun a b : ContestRankingProfile =>
        b.points < a.points ∨ (a.points = b.points ∧ a.cumtime ≤ b.cumtime))
      (contest_ranking_list contest parts subs problems) ∧
    List.Perm (contest_ranking_list contest parts subs problems)
      ((ranked_participations contest parts).map (make_ranking_profile subs problems)) ∧
    (∀ a b : Participation, a.score = b.score → a.cumtime = b.cumtime →
      [a, b].Sublist (ranked_participations contest parts) →
      [make_ranking_profile subs problems a, make_ranking_profile subs problems b].Sublist
        (contest_ranking_list contest parts subs problems)) := by
  refine ⟨?_, ?_, ?_⟩
  · have hs : List.Sorted ranking_le
        (List.insertionSort ranking_le (ranked_participations contest parts)) :=
      List.sorted_insertionSort ranking_le _
    unfold contest_ranking_list
    exact List.Pairwise.map _ (fun a b hab => hab) hs
  · unfold contest_ranking_list
    exact (List.perm_insertionSort ranking_le _).map _
  · intro a b h1 h2 hsub
    have hr : ranking_le a b := Or.inr ⟨h1, le_of_eq h2⟩
    have hpair : [a, b].Pairwise ranking_le := by
      simp [List.pairwise_cons, hr]
    unfold contest_ranking_list
    exact (List.sublist_insertionSort hpair hsub).map _

/-- Witness for C8's amended theorem: Alice's and Bob's tied rows appear in
the output in their storage order. -/
theorem ranking_order_stable_witness :
    [make_ranking_profile [] [probOne] partA,
     make_ranking_profile [] [probOne] partB].Sublist
      (contest_ranking_list contestOne [partA, partB] [] [probOne]) :=
  (ranking_order_two_keys_stable contestOne [partA, partB] [] [probOne]).2.2
    partA partB rfl rfl (by decide)

/-! ## Helper lemmas about the virtual-id allocation loop -/

theorem max_virtual_cons_match {p : Participation} {cid uid : Nat}
    (h1 : p.contestId = cid) (h2 : p.user.id = uid) (parts : List Participation) :
    max_virtual (p :: parts) cid uid = max p.virtual (max_virtual parts cid uid) := by
  unfold max_virtual
  rw [List.filter_cons]
  simp [h1, h2]

theorem max_virtual_le_cons (p : Participation) (parts : List Participation)
    (cid uid : Nat) :
    max_virtual parts cid uid ≤ max_virtual (p :: parts) cid uid := by
  unfold max_virtual
  rw [List.filter_cons]
  split
  · exact Nat.le_max_right _ _
  · exact le_refl _

theorem mem_le_max_virtual {cid uid : Nat} :
    ∀ {parts : List Participation}, ∀ q ∈ parts, q.contestId = cid →
      q.user.id = uid → q.virtual ≤ max_virtual parts cid uid := by
  intro parts
  induction parts with
  | nil => intro q hq; cases hq
  | cons p parts ih =>
    intro q hq h1 h2
    rcases List.mem_cons.mp hq with rfl | hq'
    · rw [max_virtual_cons_match h1 h2]
      exact Nat.le_max_left _ _
    · exact (ih q hq' h1 h2).trans (max_virtual_le_cons p parts cid uid)

theorem racer_row_contestId (contest : Contest) (profile : UserProfile)
    (racer : UserInfo) (parts : List Participation) (now : Int) :
    (racer_row contest profile racer parts now).contestId = contest.id := rfl

theorem racer_row_userId (contest : Contest) (profile : UserProfile)
    (racer : UserInfo) (parts : List Participation) (now : Int) :
    (racer_row contest profile racer parts now).user.id = profile.info.id := rfl

theorem racer_row_virtual (contest : Contest) (profile : UserProfile)
    (racer : UserInfo) (parts : List Participation) (now : Int) :
    (racer_row contest profile racer parts now).virtual =
      max_virtual parts contest.id profile.info.id + 1 := rfl

theorem cands_cons_true (contest : Contest) (profile : UserProfile)
    (racer : UserInfo) (now : Int) (parts : List Participation) (rest : List Bool) :
    virtual_join_candidates contest profile racer now parts (true :: rest) =
      (max_virtual parts contest.id profile.info.id + 1) ::
        virtual_join_candidates contest profile racer now
          (racer_row contest profile racer parts now :: parts) rest := rfl

theorem max_virtual_racer_cons (contest : Contest) (profile : UserProfile)
    (racer : UserInfo) (parts : List Participation) (now : Int) :
    max_virtual (racer_row contest profile racer parts now :: parts)
        contest.id profile.info.id =
      max (max_virtual parts contest.id profile.info.id + 1)
        (max_virtual parts contest.id profile.info.id) := by
  rw [max_virtual_cons_match (racer_row_contestId contest profile racer parts now)
    (racer_row_userId contest profile racer parts now) parts,
    racer_row_virtual]

theorem candidates_gt_max (contest : Contest) (profile : UserProfile)
    (racer : UserInfo) (now : Int) :
    ∀ (intf : List Bool) (parts : List Participation),
      ∀ c ∈ virtual_join_candidates contest profile racer now parts intf,
        max_virtual parts contest.id profile.info.id < c
  | [], parts, c, hc => by
    have hc' : c ∈ [max_virtual parts contest.id profile.info.id + 1] := hc
    simp only [List.mem_singleton] at hc'
    omega
  | conflict :: rest, parts, c, hc => by
    cases conflict with
    | false =>
      have hc' : c ∈ [max_virtual parts contest.id profile.info.id + 1] := hc
      simp only [List.mem_singleton] at hc'
      omega
    | true =>
      rw [cands_cons_true] at hc
      rcases List.mem_cons.mp hc with rfl | hc'
      · omega
      · have hrec := candidates_gt_max contest profile racer now rest _ c hc'
        rw [max_virtual_racer_cons] at hrec
        omega

theorem candidates_pairwise (contest : Contest) (profile : UserProfile)
    (racer : UserInfo) (now : Int) :
    ∀ (intf : List Bool) (parts : List Participation),
      List.Pairwise (· < ·) (virtual_join_candidates contest profile racer now parts intf)
  | [], parts => List.pairwise_singleton _ _
  | conflict :: rest, parts => by
    cases conflict with
    | false => exact List.pairwise_singleton _ _
    | true =>
      rw [cands_cons_true]
      refine List.pairwise_cons.mpr
        ⟨?_, candidates_pairwise contest profile racer now rest _⟩
      intro c hc
      have h := candidates_gt_max contest profile racer now rest _ c hc
      rw [max_virtual_racer_cons] at h
      omega

theorem candidates_ne_nil (contest : Contest) (profile : UserProfile)
    (racer : UserInfo) (now : Int) :
    ∀ (intf : List Bool) (parts : List Participation),
      virtual_join_candidates contest profile racer now parts intf ≠ []
  | [], _ => by exact List.cons_ne_nil _ _
  | conflict :: rest, parts => by
    cases conflict with
    | false => exact List.cons_ne_nil _ _
    | true => rw [cands_cons_true]; exact List.cons_ne_nil _ _

theorem candidates_getLast (contest : Contest) (profile : UserProfile)
    (racer : UserInfo) (now : Int) :
    ∀ (intf : List Bool) (parts : List Participation),
      (virtual_join_candidates contest profile racer now parts intf).getLast? =
        some (virtual_join_loop contest profile racer now parts intf).1.virtual
  | [], parts => rfl
  | conflict :: rest, parts => by
    cases conflict with
    | false => rfl
    | true =>
      have hstep :
          (virtual_join_candidates contest profile racer now parts (true :: rest)).getLast? =
            (virtual_join_candidates contest profile racer now
              (racer_row contest profile racer parts now :: parts) rest).getLast? := by
        rw [cands_cons_true]
        rcases hne : virtual_join_candidates contest profile racer now
            (racer_row contest profile racer parts now :: parts) rest with _ | ⟨c, cs⟩
        · exact absurd hne (candidates_ne_nil contest profile racer now rest _)
        · rw [List.getLast?_cons_cons]
      rw [hstep]
      exact candidates_getLast contest profile racer now rest _

theorem virtual_join_loop_spec (contest : Contest) (profile : UserProfile)
    (racer : UserInfo) (now : Int) :
    ∀ (intf : List Bool) (parts : List Participation),
      (virtual_join_loop contest profile racer now parts intf).2 =
        (virtual_join_loop contest profile racer now parts intf).1 ::
          (virtual_join_loop contest profile racer now parts intf).2.tail ∧
      (virtual_join_loop contest profile racer now parts intf).1.virtual =
        max_virtual ((virtual_join_loop contest profile racer now parts intf).2.tail)
          contest.id profile.info.id + 1 ∧
      (∀ q ∈ (virtual_join_loop contest profile racer now parts intf).2.tail,
        q.contestId = contest.id → q.user.id = profile.info.id →
          q.virtual < (virtual_join_loop contest profile racer now parts intf).1.virtual)
  | [], parts => by
    refine ⟨rfl, rfl, ?_⟩
    intro q hq h1 h2
    have hq' : q ∈ parts := hq
    have := mem_le_max_virtual q hq' h1 h2
    show q.virtual < max_virtual parts contest.id profile.info.id + 1
    omega
  | conflict :: rest, parts => by
    cases conflict with
    | false =>
      refine ⟨rfl, rfl, ?_⟩
      intro q hq h1 h2
      have hq' : q ∈ parts := hq
      have := mem_le_max_virtual q hq' h1 h2
      show q.virtual < max_virtual parts contest.id profile.info.id + 1
      omega
    | true =>
      exact virtual_join_loop_spec contest profile racer now rest _

/-- C7: the virtual-id allocation loop for joining an ended contest.  The
successive candidate ids it computes are strictly increasing — each attempt
re-derives the candidate from the table as it stands at that attempt,
including the rows concurrent racers inserted, so a previously computed id is
never reused after a conflict.  The loop always terminates in a successful
insert (it is a total function into a participation and an updated table, so
no conflict error reaches the caller): the inserted row tops the table, its
virtual id is the fresh maximum for `(contest, user)` plus one, strictly above
every id present at insert time, and it is the last candidate computed. -/
theorem virtual_join_allocates_fresh_ids (contest : Contest) (profile : UserProfile)
    (racer : UserInfo) (now : Int) (parts : List Participation) (intf : List Bool) :
    List.Pairwise (· < ·) (virtual_join_candidates contest profile racer now parts intf) ∧
    (virtual_join_candidates contest profile racer now parts intf).getLast? =
      some (virtual_join_loop contest profile racer now parts intf).1.virtual ∧
    (virtual_join_loop contest profile racer now parts intf).2 =
      (virtual_join_loop contest profile racer now parts intf).1 ::
        (virtual_join_loop contest profile racer now parts intf).2.tail ∧
    (virtual_join_loop contest profile racer now parts intf).1.virtual =
      max_virtual ((virtual_join_loop contest profile racer now parts intf).2.tail)
        contest.id profile.info.id + 1 ∧
    (∀ q ∈ (virtual_join_loop contest profile racer now parts intf).2.tail,
      q.contestId = contest.id → q.user.id = profile.info.id →
        q.virtual < (virtual_join_loop contest profile racer now parts intf).1.virtual) := by
  obtain ⟨h1, h2, h3⟩ := virtual_join_loop_spec contest profile racer now intf parts
  exact ⟨candidates_pairwise contest profile racer now intf parts,
    candidates_getLast contest profile racer now intf parts, h1, h2, h3⟩

/-- Witness for C7: Vera joins the ended contest while holding a previous
virtual participation (virtual 1) and losing one race (the racer takes
virtual 2); her participation gets the fresh id 3, strictly above the
pre-existing id 1. -/
theorem virtual_join_witness :
    partVPrev.virtual <
      (virtual_join_loop contestOneEnded profVera racerU 5 [partVPrev] [true]).1.virtual :=
  (virtual_join_allocates_fresh_ids contestOneEnded profVera racerU 5 [partVPrev]
    [true]).2.2.2.2 partVPrev (by decide) (by decide) (by decide)

/-- C9 counterexample: `contestOne` is joinable and Vera's current
participation is in `contestOne` itself, yet the join fails with
`AlreadyInContest` — the check at contests.py lines 180–182 fires on any
current participation, so a same-contest current participation does trigger
the failure, contrary to the claim. -/
theorem already_in_same_contest_rejected :
    contestOne.can_join = true ∧
    profVeraInOne.current_contest.map (fun p => p.contestId) = some contestOne.id ∧
    (contest_join_get contestOne profVeraInOne [] 0 racerU []).1 =
      JoinResult.alreadyInContest := by
  exact ⟨rfl, rfl, rfl⟩

/-- C9 amended: given the contest can be joined, the join fails with
`AlreadyInContest` exactly when the profile has any current participation —
whether in the contest being joined or in a different one. -/
theorem join_already_in_contest_iff (contest : Contest) (profile : UserProfile)
    (parts : List Participation) (now : Int) (racer : UserInfo) (intf : List Bool)
    (h : contest.can_join = true) :
    (contest_join_get contest profile parts now racer intf).1 =
      JoinResult.alreadyInContest ↔ profile.current_contest.isSome := by
  unfold contest_join_get
  rw [h]
  cases hs : profile.current_contest.isSome with
  | true => simp [hs]
  | false =>
    simp only [hs, Bool.not_true, Bool.false_eq_true, if_false]
    constructor
    · intro hcontra
      exfalso
      revert hcontra
      split
      · cases hvl : virtual_join_loop contest profile racer now parts intf with
        | mk p' parts' =>
          intro hcontra
          exact JoinResult.noConfusion hcontra
      · cases hgc : get_or_create_live contest profile parts now with
        | mk p' created =>
          split
          · intro hcontra
            exact JoinResult.noConfusion hcontra
          · intro hcontra
            exact JoinResult.noConfusion hcontra
    · intro hcontra
      exact absurd hcontra (by simp)

/-- Witness for C9's amended theorem, at Vera's profile with a current
participation in the contest itself. -/
theorem join_already_in_contest_witness :
    ((contest_join_get contestOne profVeraInOne [] 0 racerU []).1 =
      JoinResult.alreadyInContest) ↔ profVeraInOne.current_contest.isSome :=
  join_already_in_contest_iff contestOne profVeraInOne [] 0 racerU [] rfl

/-- C10: a rejoin of a not-ended contest that fails with `TimeLimitExceeded`
has already mutated stored state before returning the error: the existing live
participation's `spectate` flag is overwritten with whether the profile is a
contest organizer and saved (contests.py lines 205–206 run before the check on
line 208), while the profile's current-participation pointer is left
untouched (line 212 is never reached). -/
theorem rejoin_time_limit_overwrites_spectate (contest : Contest)
    (profile : UserProfile) (parts : List Participation) (now : Int)
    (racer : UserInfo) (intf : List Bool) (p0 : Participation)
    (h1 : contest.can_join = true) (h2 : profile.current_contest = none)
    (h3 : contest.ended = false)
    (h4 : parts.find? (fun p => p.contestId = contest.id &&
            p.user.id = profile.info.id && p.virtual == 0) = some p0)
    (h5 : p0.ended = true) :
    contest_join_get contest profile parts now racer intf =
      (JoinResult.timeLimitExceeded,
       save_participation parts
         { p0 with spectate := contest.organizers.contains profile.info.id } false,
       profile) := by
  unfold contest_join_get
  rw [h1, h2, h3]
  unfold get_or_create_live
  rw [h4]
  simp [h5]

/-- Witness for C10: Alice, an organizer of `contestOrg`, rejoins after her
time limit ran out; the call returns `TimeLimitExceeded` yet her stored
participation's `spectate` flag has been rewritten (to `true`) and saved, and
her profile still has no current participation. -/
theorem rejoin_time_limit_witness :
    contest_join_get contestOrg profAlice [partAEnded] 50 racerU [] =
      (JoinResult.timeLimitExceeded,
       save_participation [partAEnded]
         { partAEnded with
           spectate := contestOrg.organizers.contains profAlice.info.id } false,
       profAlice) :=
  rejoin_time_limit_overwrites_spectate contestOrg profAlice [partAEnded] 50 racerU []
    partAEnded rfl rfl rfl (by decide) rfl

end OnlineJudge
